import Mathlib

set_option autoImplicit false

namespace MCPDataProduct

/-! # Shallow embedding of the `mcp_data_product` repository

Definitions mirror the Python sources:
* `apps/mcp_server/src/server.py` — the MCP server's tool and resource handlers;
* `apps/client/src/mcp_connection.py` — `get_server_info`;
* `apps/client/src/tools.py` / `resources.py` — the catalog formatters;
* `apps/client/src/queries.py` — the query orchestration loop.

Python dictionaries with a fixed key set are modelled as structures; JSON values
as the inductive `Json`; a Python call that may raise is modelled as an
`Except String` value carrying `str(e)` of the exception. External collaborators
(the MCP session, `json.loads`, the OpenAI completions endpoint, the filesystem)
are parameters supplied through environment records, so every theorem quantifies
over their behaviour. -/

/-- JSON values, used for tool input schemas and decoded tool-call arguments. -/
inductive Json where
  | null
  | bool (b : Bool)
  | num (n : Int)
  | str (s : String)
  | arr (elems : List Json)
  | obj (entries : List (String × Json))

/-! ## Python string primitives

`str.replace` replaces every non-overlapping occurrence left to right; Lean's
`String.replace` matches but is defined by well-founded recursion, which the
kernel cannot evaluate, so we re-implement it with structural (fuel) recursion.
`sorted` on strings is ascending lexicographic comparison of code points. -/

/-- One step per consumed character; `fuel` starts at the input length, which
bounds the number of steps since each step consumes at least one character. -/
def pyReplaceAux (pat rep : List Char) : Nat → List Char → List Char
  | 0, s => s
  | _ + 1, [] => []
  | fuel + 1, c :: rest =>
    if pat ≠ [] ∧ pat.isPrefixOf (c :: rest) then
      rep ++ pyReplaceAux pat rep fuel (List.drop pat.length (c :: rest))
    else
      c :: pyReplaceAux pat rep fuel rest

/-- Python `s.replace(pat, rep)` for a non-empty pattern: replace every
non-overlapping occurrence, scanning left to right. -/
def pyReplace (s pat rep : String) : String :=
  ⟨pyReplaceAux pat.data rep.data s.data.length s.data⟩

/-- Lexicographic comparison of character lists by code point. -/
def charsLe : List Char → List Char → Bool
  | [], _ => true
  | _ :: _, [] => false
  | x :: xs, y :: ys => if x = y then charsLe xs ys else decide (x < y)

/-- Python string `<=`: lexicographic by code points. -/
def strLe (a b : String) : Bool := charsLe a.data b.data

/-- Python `s.startswith(p)`. -/
def pyStartswith (s p : String) : Bool := p.data.isPrefixOf s.data

/-- Python `sorted` on a list of strings (ascending; stability is irrelevant
because equal strings are identical). -/
def pySorted (l : List String) : List String := List.insertionSort (fun a b => strLe a b) l

/-! ## MCP server — `apps/mcp_server/src/server.py`

The handlers read the local filesystem through `os.path.exists`, `os.listdir`
and `os.path.isdir`; these externals are bundled in `FileSystem`. `os.listdir`
may raise `OSError`, hence its `Except` result; `os.path.exists` and
`os.path.isdir` return `False` on errors and never raise. -/

/-- The filesystem operations used by `list_all_data_products`. -/
structure FileSystem where
  path_exists : String → Bool
  listdir : String → Except String (List String)
  isdir : String → Bool

/-- `add(a, b)`: the calculator tool. -/
def add (a b : Int) : Int := a + b

/-- `get_config()`: the static configuration resource. -/
def get_config : String := "App configuration here"

/-- `get_greeting(name)`: the templated greeting resource. -/
def get_greeting (name : String) : String := "Hello, " ++ name ++ "!"

/-- `list_all_data_products()`: enumerate the subdirectories of the local
`resources` folder; its `try`/`except` converts any filesystem error into an
error string, so the function itself never raises. -/
def list_all_data_products (fs : FileSystem) : String :=
  let resources_path := "resources"
  let body : Except String String :=
    if fs.path_exists resources_path then do
      let items ← fs.listdir resources_path
      let data_products := items.filter (fun item => fs.isdir (resources_path ++ "/" ++ item))
      if data_products.isEmpty then
        pure "No data products found in the resources directory."
      else
        pure ("Available Data Products:\n" ++
          String.intercalate "\n" ((pySorted data_products).map (fun dp => "- " ++ dp)))
    else
      pure "Resources directory not found."
  match body with
  | .ok s => s
  | .error e => "Error accessing data products: " ++ e

/-- The three resource handlers `read_resource_content` dispatches to. Each is
a Python call, so its outcome is an `Except`: `.error e` models the call
raising an exception with `str(e) = e`. -/
structure ResourceHandlers where
  list_all_data_products : Except String String
  get_config : Except String String
  get_greeting : String → Except String String

/-- `read_resource_content(resource_uri)`, parameterized by the outcomes of the
dispatched handler calls: the `if`/`elif` chain inside the `try` block, and the
`except` clause formatting any exception as
`"Error reading resource <uri>: <message>"`. -/
def read_resource_content_with (handlers : ResourceHandlers) (resource_uri : String) : String :=
  let body : Except String String :=
    if resource_uri = "data://list" then
      handlers.list_all_data_products
    else if resource_uri = "data://list_all_data_products" then
      handlers.list_all_data_products
    else if resource_uri = "config://app" then
      handlers.get_config
    else if resource_uri = "config://get_config" then
      handlers.get_config
    else if pyStartswith resource_uri "greeting://" then
      handlers.get_greeting (pyReplace resource_uri "greeting://" "")
    else
      .ok ("Unknown resource URI: " ++ resource_uri)
  match body with
  | .ok s => s
  | .error e => "Error reading resource " ++ resource_uri ++ ": " ++ e

/-- The actual handlers of `server.py`: all three are total (they catch their
own internal errors), so each call is modelled as `.ok` of its result. -/
def serverHandlers (fs : FileSystem) : ResourceHandlers :=
  { list_all_data_products := .ok (list_all_data_products fs),
    get_config := .ok get_config,
    get_greeting := fun name => .ok (get_greeting name) }

/-- `read_resource_content` as registered on the server: the dispatcher applied
to the concrete handlers. -/
def read_resource_content (fs : FileSystem) (resource_uri : String) : String :=
  read_resource_content_with (serverHandlers fs) resource_uri

/-! ## Client connection — `apps/client/src/mcp_connection.py` -/

/-- A tool as listed by the MCP SDK (`session.list_tools()`): name, description
and input schema. -/
structure MCPTool where
  name : String
  description : String
  inputSchema : Json

/-- A resource as listed by the MCP SDK (`session.list_resources()`). -/
structure MCPResource where
  uri : String
  name : String
  description : String

/-- One element of a tool-call result's `content` list; only its `.text` is
read by the client. -/
structure TextContent where
  text : String

/-- The value returned by `session.call_tool`. -/
structure CallToolResult where
  content : List TextContent

/-- The MCP session as seen by the client: the three session operations it
invokes. Each may raise, modelled by `Except`. -/
structure Session where
  list_tools : Except String (List MCPTool)
  list_resources : Except String (List MCPResource)
  call_tool : String → Json → Except String CallToolResult

/-- The per-tool dictionary built at `mcp_connection.py:103`: it has exactly
the keys `name` and `description`. `inputSchema` keeps a faithful image of the
dictionary's (absent) `"inputSchema"` key: `get_server_info` never sets it, but
`tools.py` later does `tool.get("inputSchema", {})` on this dictionary. -/
structure ToolInfo where
  name : String
  description : String
  inputSchema : Option Json

/-- The per-resource dictionary built at `mcp_connection.py:111`, also used as
the inner `"resource"` dictionary built by `resources.py`. -/
structure ResourceInfo where
  name : String
  description : String
  deriving DecidableEq

/-- The `info` dictionary returned by `get_server_info` (the always-empty
`"server_info"` key is omitted). -/
structure ServerInfo where
  tools : List ToolInfo
  resources : List ResourceInfo

/-- `get_server_info(session)`: list tools, keep name/description per tool,
list resources, keep name/description per resource; any exception from the two
session calls is logged and re-raised. -/
def get_server_info (session : Session) : Except String ServerInfo :=
  match session.list_tools with
  | .error e => .error e
  | .ok tools_result =>
    let tools := tools_result.map (fun tool =>
      { name := tool.name, description := tool.description, inputSchema := none : ToolInfo })
    match session.list_resources with
    | .error e => .error e
    | .ok resources_result =>
      let resources := resources_result.map (fun resource =>
        { name := resource.name, description := resource.description : ResourceInfo })
      .ok { tools := tools, resources := resources }

/-! ## Catalog formatters — `apps/client/src/tools.py` and `resources.py` -/

/-- The inner `"function"` dictionary of an OpenAI tool entry. -/
structure FunctionSpec where
  name : String
  description : String
  parameters : Json

/-- One entry of the OpenAI-formatted tool catalog:
`{type: "function", function: {...}}`. -/
structure ToolDict where
  type : String
  function : FunctionSpec

/-- One entry of the resource catalog: `{type: "resource", resource: {...}}`. -/
structure ResourceDict where
  type : String
  resource : ResourceInfo
  deriving DecidableEq

/-- `get_mcp_tools(session)`: format the server's tools for the OpenAI API;
`parameters` is `tool.get("inputSchema", {})`; any exception yields `[]`. -/
def get_mcp_tools (session : Session) : List ToolDict :=
  match get_server_info session with
  | .ok server_info =>
    server_info.tools.map (fun tool =>
      { type := "function",
        function :=
          { name := tool.name,
            description := tool.description,
            parameters := tool.inputSchema.getD (Json.obj []) } })
  | .error _ => []

/-- `get_mcp_resources(session)`: format the server's resources; any exception
yields `[]`. -/
def get_mcp_resources (session : Session) : List ResourceDict :=
  match get_server_info session with
  | .ok server_info =>
    server_info.resources.map (fun resource =>
      { type := "resource",
        resource := { name := resource.name, description := resource.description } })
  | .error _ => []

/-! ## Query orchestration — `apps/client/src/queries.py` -/

/-- `SYSTEM_MESSAGE_BASE` constant. -/
def SYSTEM_MESSAGE_BASE : String := "You are a helpful assistant."

/-- `RESOURCES_PROMPT` constant. -/
def RESOURCES_PROMPT : String := "\n\nAvailable Resources (use tools to fetch content):\n"

/-- `TOOL_USAGE_PROMPT` constant. -/
def TOOL_USAGE_PROMPT : String :=
  "\nUse the appropriate tools to fetch resource content when needed."

/-- `TOOL_CHOICE_AUTO` constant. -/
def TOOL_CHOICE_AUTO : String := "auto"

/-- `TOOL_CHOICE_NONE` constant. -/
def TOOL_CHOICE_NONE : String := "none"

/-- The configured completion model name. -/
def model : String := "gpt-4"

/-- The `function` part of an OpenAI tool-call request: a tool name and the
JSON text of its arguments. -/
structure ToolFunction where
  name : String
  arguments : String
  deriving DecidableEq

/-- A tool-call request emitted by the completion API. -/
structure ToolCall where
  id : String
  function : ToolFunction
  deriving DecidableEq

/-- The assistant message of a completion choice: optional text content and an
optional list of tool-call requests (the SDK uses `None` when absent). -/
structure AssistantMessage where
  content : Option String
  tool_calls : Option (List ToolCall)
  deriving DecidableEq

/-- One element of a completion response's `choices` list. -/
structure Choice where
  message : AssistantMessage
  deriving DecidableEq

/-- A completion response; the client reads `response.choices[0]`. -/
structure Response where
  choices : List Choice
  deriving DecidableEq

/-- The dictionary built by `_execute_single_tool_call`:
`{role, tool_call_id, content}`. -/
structure ToolMsg where
  role : String
  tool_call_id : String
  content : String
  deriving DecidableEq

/-- A conversation message: the system and user dictionaries, the SDK
assistant-message object appended at `queries.py:240`, and the tool-result
dictionaries. -/
inductive Message where
  | system (content : String)
  | user (content : String)
  | assistant (m : AssistantMessage)
  | tool (m : ToolMsg)

/-- The argument bundle of one `chat.completions.create` call. -/
structure ChatRequest where
  model : String
  messages : List Message
  tools : Option (List ToolDict)
  tool_choice : Option String

/-- The client's external collaborators: the MCP session, `json.loads`, and the
OpenAI completions endpoint (a function of the full request). -/
structure Env where
  session : Session
  json_loads : String → Except String Json
  completions : ChatRequest → Except String Response

/-- The observable effects of one orchestration run: the completion requests
issued, in order, and the server tool calls issued, in order. -/
structure Trace where
  openaiCalls : List ChatRequest
  serverCalls : List (String × Json)

/-- Python truthiness of an `Optional[List]`: `None` and `[]` are falsy. -/
def optListTruthy {α : Type} : Option (List α) → Bool
  | some (_ :: _) => true
  | _ => false

/-- `_build_system_message(resources_info)`: start from the base message and,
when `resources_info` is truthy, append the resources prompt, one bullet per
resource (the `for` loop's repeated `+=`, modelled as a left fold), and the
tool-usage prompt. -/
def _build_system_message (resources_info : Option (List ResourceDict)) : String :=
  let system_message := SYSTEM_MESSAGE_BASE
  if optListTruthy resources_info then
    let system_message := system_message ++ RESOURCES_PROMPT
    let system_message :=
      (resources_info.getD []).foldl
        (fun acc resource =>
          acc ++ "- " ++ resource.resource.name ++ ": " ++ resource.resource.description ++ "\n")
        system_message
    system_message ++ TOOL_USAGE_PROMPT
  else
    system_message

/-- `_execute_single_tool_call(session, tool_call, ...)`: parse the arguments
with `json.loads`, issue `session.call_tool`, and read `result.content[0].text`
(an empty `content` list raises `IndexError`, caught like every other
exception); any exception becomes a tool message with content
`"Error executing tool: <message>"`. Returns the tool message together with the
list of server calls issued (empty when `json.loads` raised, one otherwise). -/
def _execute_single_tool_call (env : Env) (tool_call : ToolCall) :
    ToolMsg × List (String × Json) :=
  match env.json_loads tool_call.function.arguments with
  | .error e =>
    ({ role := "tool", tool_call_id := tool_call.id,
       content := "Error executing tool: " ++ e }, [])
  | .ok parsed_args =>
    match env.session.call_tool tool_call.function.name parsed_args with
    | .error e =>
      ({ role := "tool", tool_call_id := tool_call.id,
         content := "Error executing tool: " ++ e },
       [(tool_call.function.name, parsed_args)])
    | .ok result =>
      match result.content with
      | [] =>
        ({ role := "tool", tool_call_id := tool_call.id,
           content := "Error executing tool: list index out of range" },
         [(tool_call.function.name, parsed_args)])
      | first :: _ =>
        ({ role := "tool", tool_call_id := tool_call.id, content := first.text },
         [(tool_call.function.name, parsed_args)])

/-- `_process_tool_calls(session, assistant_message, messages)`: execute the
tool calls one at a time, in order, appending each result message. Returns the
extended message list and the server calls issued. -/
def _process_tool_calls (env : Env) (tool_calls : List ToolCall) (messages : List Message) :
    List Message × List (String × Json) :=
  match tool_calls with
  | [] => (messages, [])
  | tool_call :: rest =>
    let step := _execute_single_tool_call env tool_call
    let next := _process_tool_calls env rest (messages ++ [Message.tool step.1])
    (next.1, step.2 ++ next.2)

/-- The request `_make_openai_call` sends: `tools if tools else None` and
`tool_choice if tools else None`. -/
def chatRequest (messages : List Message) (tools : List ToolDict) (tool_choice : String) :
    ChatRequest :=
  { model := model,
    messages := messages,
    tools := if tools.isEmpty then none else some tools,
    tool_choice := if tools.isEmpty then none else some tool_choice }

/-- `_make_openai_call(messages, tools, tool_choice, ...)`: build the request
and issue it; returns the request (for the trace) and the endpoint's outcome. -/
def _make_openai_call (env : Env) (messages : List Message) (tools : List ToolDict)
    (tool_choice : String) : ChatRequest × Except String Response :=
  let request := chatRequest messages tools tool_choice
  (request, env.completions request)

/-- The `[system, user]` message list built at `queries.py:229`, with the
system message derived from the resource catalog. -/
def initialMessages (env : Env) (query : String) : List Message :=
  [Message.system (_build_system_message (some (get_mcp_resources env.session))),
   Message.user query]

/-- The body of `process_query_with_resource_tools`'s `try` block: `.error e`
is an exception with message `e` escaping to the outer `except`; the `Trace`
records the completion requests and server calls issued up to that point.
`json.loads` and `call_tool` failures are already handled inside
`_execute_single_tool_call` and do not surface here. -/
def process_query_inner (env : Env) (query : String) :
    Except String (Option String) × Trace :=
  let tools := get_mcp_tools env.session
  let messages := initialMessages env query
  let first := _make_openai_call env messages tools TOOL_CHOICE_AUTO
  match first.2 with
  | .error e => (.error e, { openaiCalls := [first.1], serverCalls := [] })
  | .ok response =>
    match response.choices with
    | [] =>
      (.error "list index out of range",
       { openaiCalls := [first.1], serverCalls := [] })
    | choice :: _ =>
      let assistant_message := choice.message
      let messages := messages ++ [Message.assistant assistant_message]
      if optListTruthy assistant_message.tool_calls then
        let processed := _process_tool_calls env (assistant_message.tool_calls.getD []) messages
        let final := _make_openai_call env processed.1 tools TOOL_CHOICE_NONE
        match final.2 with
        | .error e =>
          (.error e, { openaiCalls := [first.1, final.1], serverCalls := processed.2 })
        | .ok final_response =>
          match final_response.choices with
          | [] =>
            (.error "list index out of range",
             { openaiCalls := [first.1, final.1], serverCalls := processed.2 })
          | final_choice :: _ =>
            (.ok final_choice.message.content,
             { openaiCalls := [first.1, final.1], serverCalls := processed.2 })
      else
        (.ok assistant_message.content, { openaiCalls := [first.1], serverCalls := [] })

/-- `process_query_with_resource_tools(session, query)`: the `try` body, with
the outer `except` turning any exception into the apology string. -/
def process_query_with_resource_tools (env : Env) (query : String) : Option String × Trace :=
  match process_query_inner env query with
  | (.ok answer, trace) => (answer, trace)
  | (.error e, trace) =>
    (some ("Sorry, I encountered an error while processing your query: " ++ e), trace)

/-! ## Helper lemmas -/

/-- Characterization of `_process_tool_calls`: it appends exactly one tool
message per tool call, in order, and issues the concatenation of the per-call
server calls, in order. -/
theorem process_tool_calls_spec (env : Env) (tool_calls : List ToolCall)
    (messages : List Message) :
    _process_tool_calls env tool_calls messages =
      (messages ++ tool_calls.map (fun tc => Message.tool (_execute_single_tool_call env tc).1),
       tool_calls.flatMap (fun tc => (_execute_single_tool_call env tc).2)) := by
  induction tool_calls generalizing messages with
  | nil => simp [_process_tool_calls]
  | cons tc rest ih => simp [_process_tool_calls, ih]

/-- When its arguments parse, a single tool call issues exactly one server
call, carrying the tool's name and the decoded arguments, whether or not the
call itself succeeds. -/
theorem execute_single_server_call (env : Env) (tc : ToolCall) (args : Json)
    (h : env.json_loads tc.function.arguments = .ok args) :
    (_execute_single_tool_call env tc).2 = [(tc.function.name, args)] := by
  unfold _execute_single_tool_call
  rw [h]
  cases hc : env.session.call_tool tc.function.name args with
  | error e => simp [hc]
  | ok result => cases hr : result.content <;> simp [hc, hr]

/-- Under all-arguments-parse, the server calls of a batch are exactly one per
request, in order. -/
theorem server_calls_of_parsed (env : Env) (tcs : List ToolCall) (parse : ToolCall → Json)
    (hparse : ∀ tc ∈ tcs, env.json_loads tc.function.arguments = .ok (parse tc)) :
    tcs.flatMap (fun tc => (_execute_single_tool_call env tc).2) =
      tcs.map (fun tc => (tc.function.name, parse tc)) := by
  induction tcs with
  | nil => rfl
  | cons tc rest ih =>
    rw [List.flatMap_cons, List.map_cons,
      execute_single_server_call env tc (parse tc) (hparse tc (by simp)),
      ih (fun t ht => hparse t (by simp [ht]))]
    rfl

/-- The bullet line `_build_system_message` renders for one resource. -/
def bulletLine (resource : ResourceDict) : String :=
  "- " ++ resource.resource.name ++ ": " ++ resource.resource.description ++ "\n"

/-- The body of `_build_system_message`'s `for` loop appends one `bulletLine`
per resource: the fold equals the initial string followed by the join of the
bullet lines. -/
theorem foldl_bullets_eq_join (l : List ResourceDict) (init : String) :
    l.foldl
        (fun acc resource =>
          acc ++ "- " ++ resource.resource.name ++ ": " ++ resource.resource.description ++ "\n")
        init =
      init ++ String.join (l.map bulletLine) := by
  induction l generalizing init with
  | nil =>
    apply String.ext
    simp [String.data_append]
  | cons r rest ih =>
    rw [List.foldl_cons, ih]
    apply String.ext
    simp [bulletLine, String.data_append]

/-- On successful listings, `get_server_info` keeps exactly the name and the
description of every tool and resource; in particular the tool dictionaries it
builds carry no `inputSchema` key. -/
theorem get_server_info_ok (session : Session) (mcp_tools : List MCPTool)
    (mcp_resources : List MCPResource)
    (htools : session.list_tools = .ok mcp_tools)
    (hres : session.list_resources = .ok mcp_resources) :
    get_server_info session =
      .ok { tools := mcp_tools.map (fun tool =>
              { name := tool.name, description := tool.description, inputSchema := none }),
            resources := mcp_resources.map (fun resource =>
              { name := resource.name, description := resource.description }) } := by
  unfold get_server_info
  rw [htools, hres]

/-! ## Claims -/

/-- C1 (amended): for every successfully retrieved catalog, `get_mcp_tools`
returns exactly one entry per tool, of shape
`{type: "function", function: {name, description, parameters}}`, preserving the
tool's name and description; the `parameters` field is always the empty object
`{}` — the fallback of `tool.get("inputSchema", {})` — because `get_server_info`
does not propagate the tools' input schemas. -/
theorem get_mcp_tools_entries (session : Session) (mcp_tools : List MCPTool)
    (mcp_resources : List MCPResource)
    (htools : session.list_tools = .ok mcp_tools)
    (hres : session.list_resources = .ok mcp_resources) :
    get_mcp_tools session =
      mcp_tools.map (fun tool =>
        { type := "function",
          function := { name := tool.name, description := tool.description,
                        parameters := Json.obj [] } }) := by
  unfold get_mcp_tools
  rw [get_server_info_ok session mcp_tools mcp_resources htools hres]
  simp only [List.map_map]
  rfl

/-- The JSON schema FastMCP derives for the `add(a: int, b: int)` tool. -/
def addInputSchema : Json :=
  Json.obj
    [("properties",
      Json.obj [("a", Json.obj [("title", Json.str "A"), ("type", Json.str "integer")]),
                ("b", Json.obj [("title", Json.str "B"), ("type", Json.str "integer")])]),
     ("required", Json.arr [Json.str "a", Json.str "b"]),
     ("title", Json.str "addArguments"),
     ("type", Json.str "object")]

/-- A session whose server lists one tool carrying a non-trivial input
schema. -/
def sessionWithAddTool : Session :=
  { list_tools := .ok [{ name := "add", description := "Add two numbers together",
                         inputSchema := addInputSchema }],
    list_resources := .ok [],
    call_tool := fun _ _ => .error "unused" }

/-- C1 counterexample: for a catalog holding one tool whose input schema is the
non-empty `addInputSchema`, the formatter's single entry carries `{}` as its
`parameters` field, not the tool's input schema, refuting the claim as
stated. -/
theorem get_mcp_tools_drops_input_schema :
    (get_mcp_tools sessionWithAddTool).map (fun entry => entry.function.parameters) =
      [Json.obj []] ∧
    ¬ (get_mcp_tools sessionWithAddTool).map (fun entry => entry.function.parameters) =
        [addInputSchema] := by
  constructor
  · rfl
  · intro h
    have h0 : (get_mcp_tools sessionWithAddTool).map (fun entry => entry.function.parameters) =
        [Json.obj []] := rfl
    rw [h0] at h
    simp [addInputSchema] at h

/-- C1 witness: the amended claim at the concrete one-tool session. -/
theorem get_mcp_tools_entries_witness :
    get_mcp_tools sessionWithAddTool =
      [{ type := "function",
         function := { name := "add", description := "Add two numbers together",
                       parameters := Json.obj [] } }] := by
  have h := get_mcp_tools_entries sessionWithAddTool
    [{ name := "add", description := "Add two numbers together", inputSchema := addInputSchema }]
    [] rfl rfl
  exact h

/-- When the server call raises, the single-call executor returns the tool
message `{role: "tool", tool_call_id: <id>, content: "Error executing tool: <message>"}`. -/
theorem execute_single_error (env : Env) (tc : ToolCall) (args : Json) (e : String)
    (hparse : env.json_loads tc.function.arguments = .ok args)
    (hcall : env.session.call_tool tc.function.name args = .error e) :
    (_execute_single_tool_call env tc).1 =
      { role := "tool", tool_call_id := tc.id, content := "Error executing tool: " ++ e } := by
  unfold _execute_single_tool_call
  rw [hparse]
  simp [hcall]

/-- C2: for every sequence of tool-call requests, the batch appends exactly one
tool message per request; when the `i`-th call's execution raises with message
`e`, its appended message is the tool-role message keyed by that call's id with
content `"Error executing tool: <e>"`; and every request `j` — before or after
the failing one — still executes, its own result message appearing at position
`j` of the appended block. -/
theorem tool_call_error_in_band (env : Env) (tool_calls : List ToolCall)
    (messages : List Message) (i : Nat) (hi : i < tool_calls.length)
    (args : Json) (e : String)
    (hparse : env.json_loads tool_calls[i].function.arguments = .ok args)
    (hcall : env.session.call_tool tool_calls[i].function.name args = .error e) :
    (_process_tool_calls env tool_calls messages).1.length =
      messages.length + tool_calls.length ∧
    (_process_tool_calls env tool_calls messages).1[messages.length + i]? =
      some (Message.tool { role := "tool", tool_call_id := tool_calls[i].id,
                           content := "Error executing tool: " ++ e }) ∧
    ∀ j (hj : j < tool_calls.length),
      (_process_tool_calls env tool_calls messages).1[messages.length + j]? =
        some (Message.tool (_execute_single_tool_call env tool_calls[j]).1) := by
  have hall : ∀ j (hj : j < tool_calls.length),
      (_process_tool_calls env tool_calls messages).1[messages.length + j]? =
        some (Message.tool (_execute_single_tool_call env tool_calls[j]).1) := by
    intro j hj
    rw [process_tool_calls_spec]
    rw [List.getElem?_append_right (by omega)]
    simp [hj]
  refine ⟨by rw [process_tool_calls_spec]; simp, ?_, hall⟩
  rw [hall i hi, execute_single_error env tool_calls[i] args e hparse hcall]

/-- A session whose tool executor always raises. -/
def failingToolSession : Session :=
  { list_tools := .ok [], list_resources := .ok [],
    call_tool := fun _ _ => .error "boom" }

/-- An environment whose tool calls always raise `boom`. -/
def failingToolEnv : Env :=
  { session := failingToolSession,
    json_loads := fun _ => .ok (Json.obj []),
    completions := fun _ => .error "unused" }

/-- Two tool-call requests with empty JSON-object argument payloads. -/
def twoToolCalls : List ToolCall :=
  [{ id := "call_1", function := { name := "add", arguments := "\x7b\x7d" } },
   { id := "call_2", function := { name := "add", arguments := "\x7b\x7d" } }]

/-- C2 witness: with both calls raising `boom`, both error messages are
appended in order. -/
theorem tool_call_error_in_band_witness :
    (_process_tool_calls failingToolEnv twoToolCalls []).1.length = 2 ∧
    (_process_tool_calls failingToolEnv twoToolCalls []).1[0]? =
      some (Message.tool { role := "tool", tool_call_id := "call_1",
                           content := "Error executing tool: boom" }) := by
  have h := tool_call_error_in_band failingToolEnv twoToolCalls [] 0 (by decide)
    (Json.obj []) "boom" rfl rfl
  exact ⟨h.1, h.2.1⟩

/-- C3: when the first completion response requests N ≥ 1 tool calls (each
with a JSON-decodable argument payload, per the data model) and the second
completion call returns a response with a first choice, the loop issues exactly
N server calls, one per request, in request order, issues exactly the two
completion requests, in order, and returns the second response's message
content. -/
theorem query_tool_call_round (env : Env) (query : String)
    (am : AssistantMessage) (tcs : List ToolCall) (rest1 : List Choice)
    (parse : ToolCall → Json) (final_choice : Choice) (rest2 : List Choice)
    (h1 : env.completions (chatRequest (initialMessages env query)
        (get_mcp_tools env.session) TOOL_CHOICE_AUTO) =
      .ok { choices := { message := am } :: rest1 })
    (htc : am.tool_calls = some tcs) (hne : tcs ≠ [])
    (hparse : ∀ tc ∈ tcs, env.json_loads tc.function.arguments = .ok (parse tc))
    (h2 : env.completions (chatRequest
        (initialMessages env query ++ [Message.assistant am] ++
          tcs.map (fun tc => Message.tool (_execute_single_tool_call env tc).1))
        (get_mcp_tools env.session) TOOL_CHOICE_NONE) =
      .ok { choices := final_choice :: rest2 }) :
    process_query_with_resource_tools env query =
      (final_choice.message.content,
       { openaiCalls :=
           [chatRequest (initialMessages env query) (get_mcp_tools env.session)
              TOOL_CHOICE_AUTO,
            chatRequest
              (initialMessages env query ++ [Message.assistant am] ++
                tcs.map (fun tc => Message.tool (_execute_single_tool_call env tc).1))
              (get_mcp_tools env.session) TOOL_CHOICE_NONE],
         serverCalls := tcs.map (fun tc => (tc.function.name, parse tc)) }) := by
  obtain ⟨tc0, tcrest, rfl⟩ : ∃ a l, tcs = a :: l := by
    cases tcs with
    | nil => exact absurd rfl hne
    | cons a l => exact ⟨a, l, rfl⟩
  simp only [process_query_with_resource_tools, process_query_inner, _make_openai_call]
  rw [h1]
  simp only [htc, optListTruthy, Option.getD, process_tool_calls_spec,
    server_calls_of_parsed env (tc0 :: tcrest) parse hparse]
  rw [h2]
  simp

/-- C4: when the first completion response requests no tool calls, the loop
issues exactly that one completion request, no server calls, and returns the
response's message content unmodified. -/
theorem query_direct_answer (env : Env) (query : String)
    (am : AssistantMessage) (rest1 : List Choice)
    (h1 : env.completions (chatRequest (initialMessages env query)
        (get_mcp_tools env.session) TOOL_CHOICE_AUTO) =
      .ok { choices := { message := am } :: rest1 })
    (htc : optListTruthy am.tool_calls = false) :
    process_query_with_resource_tools env query =
      (am.content,
       { openaiCalls :=
           [chatRequest (initialMessages env query) (get_mcp_tools env.session)
              TOOL_CHOICE_AUTO],
         serverCalls := [] }) := by
  simp only [process_query_with_resource_tools, process_query_inner, _make_openai_call]
  rw [h1]
  simp [htc]

/-- C5: any exception escaping a step of the orchestration loop's body is
caught by the outermost handler, which returns the apology string embedding
the error message instead of propagating. -/
theorem orchestration_catches_exceptions (env : Env) (query : String) (e : String)
    (h : (process_query_inner env query).1 = .error e) :
    (process_query_with_resource_tools env query).1 =
      some ("Sorry, I encountered an error while processing your query: " ++ e) := by
  unfold process_query_with_resource_tools
  rcases hq : process_query_inner env query with ⟨r, t⟩
  rw [hq] at h
  cases r with
  | ok v => exact absurd h (by simp)
  | error e2 =>
    have he : e2 = e := by simpa using h
    rw [he]

/-- A session whose tool calls succeed with content `"8"`. -/
def happySession : Session :=
  { list_tools := .ok [], list_resources := .ok [],
    call_tool := fun _ _ => .ok { content := [{ text := "8" }] } }

/-- A first response requesting one `add` tool call with payload `"{}"`. -/
def toolCallAssistantMessage : AssistantMessage :=
  { content := none,
    tool_calls := some [{ id := "call_1", function := { name := "add", arguments := "\x7b\x7d" } }] }

/-- The second response's message: a plain text answer. -/
def finalAssistantMessage : AssistantMessage :=
  { content := some "The answer is 8.", tool_calls := none }

/-- An environment whose completion endpoint requests one tool call on the
two-message initial request and answers in text on the longer follow-up
request. -/
def happyEnv : Env :=
  { session := happySession,
    json_loads := fun _ => .ok (Json.obj []),
    completions := fun req =>
      if req.messages.length == 2 then
        .ok { choices := [{ message := toolCallAssistantMessage }] }
      else
        .ok { choices := [{ message := finalAssistantMessage }] } }

/-- C3 witness: one requested tool call leads to one server call, two
completion calls, and the second response's content as the answer. -/
theorem query_tool_call_round_witness :
    (process_query_with_resource_tools happyEnv "What is 5 plus 3?").1 =
      some "The answer is 8." ∧
    (process_query_with_resource_tools happyEnv "What is 5 plus 3?").2.openaiCalls.length = 2 ∧
    (process_query_with_resource_tools happyEnv "What is 5 plus 3?").2.serverCalls =
      [("add", Json.obj [])] := by
  have h := query_tool_call_round happyEnv "What is 5 plus 3?" toolCallAssistantMessage
    [{ id := "call_1", function := { name := "add", arguments := "\x7b\x7d" } }] []
    (fun _ => Json.obj []) { message := finalAssistantMessage } []
    rfl rfl (by decide) (by intro tc _; rfl) rfl
  rw [h]
  exact ⟨rfl, rfl, rfl⟩

/-- A first response with no tool calls. -/
def directAssistantMessage : AssistantMessage :=
  { content := some "Hi there!", tool_calls := none }

/-- An environment whose completion endpoint answers directly in text. -/
def directEnv : Env :=
  { session := happySession,
    json_loads := fun _ => .ok Json.null,
    completions := fun _ => .ok { choices := [{ message := directAssistantMessage }] } }

/-- C4 witness: no requested tool calls leads to one completion call, no
server calls, and the direct content as the answer. -/
theorem query_direct_answer_witness :
    (process_query_with_resource_tools directEnv "Hello").1 = some "Hi there!" ∧
    (process_query_with_resource_tools directEnv "Hello").2.openaiCalls.length = 1 ∧
    (process_query_with_resource_tools directEnv "Hello").2.serverCalls = [] := by
  have h := query_direct_answer directEnv "Hello" directAssistantMessage [] rfl rfl
  rw [h]
  exact ⟨rfl, rfl, rfl⟩

/-- An environment whose completion endpoint always raises. -/
def apiDownEnv : Env :=
  { session := happySession,
    json_loads := fun _ => .ok Json.null,
    completions := fun _ => .error "Rate limit exceeded" }

/-- C5 witness: a completion-API failure is answered with the apology string
embedding the error message. -/
theorem orchestration_catches_exceptions_witness :
    (process_query_with_resource_tools apiDownEnv "Hello").1 =
      some "Sorry, I encountered an error while processing your query: Rate limit exceeded" :=
  orchestration_catches_exceptions apiDownEnv "Hello" "Rate limit exceeded" rfl

/-- C6: when the server-info query raises, both catalog formatters swallow the
exception and return the empty list. -/
theorem catalog_failure_degrades_to_empty (session : Session) (e : String)
    (h : get_server_info session = .error e) :
    get_mcp_tools session = [] ∧ get_mcp_resources session = [] := by
  unfold get_mcp_tools get_mcp_resources
  rw [h]
  exact ⟨rfl, rfl⟩

/-- A session whose tool listing raises. -/
def downSession : Session :=
  { list_tools := .error "connection closed", list_resources := .ok [],
    call_tool := fun _ _ => .error "connection closed" }

/-- C6 witness: a failing tool listing yields two empty catalogs. -/
theorem catalog_failure_degrades_to_empty_witness :
    get_mcp_tools downSession = [] ∧ get_mcp_resources downSession = [] :=
  catalog_failure_degrades_to_empty downSession "connection closed" rfl

/-- C7: for a non-empty resource catalog, the system message is the base
message, the resources prompt, one bullet line `"- <name>: <description>\n"`
per resource, in order, and the tool-usage prompt; for an empty or absent
catalog it is exactly the base message. -/
theorem system_message_bullets (resources_info : List ResourceDict)
    (hne : resources_info ≠ []) :
    _build_system_message (some resources_info) =
      SYSTEM_MESSAGE_BASE ++ RESOURCES_PROMPT ++
        String.join (resources_info.map bulletLine) ++ TOOL_USAGE_PROMPT ∧
    _build_system_message (some []) = SYSTEM_MESSAGE_BASE ∧
    _build_system_message none = SYSTEM_MESSAGE_BASE := by
  refine ⟨?_, rfl, rfl⟩
  obtain ⟨r, rest, rfl⟩ : ∃ a l, resources_info = a :: l := by
    cases resources_info with
    | nil => exact absurd rfl hne
    | cons a l => exact ⟨a, l, rfl⟩
  unfold _build_system_message
  simp only [optListTruthy, Option.getD, if_true]
  rw [foldl_bullets_eq_join]

/-- A two-resource catalog as formatted by `get_mcp_resources`. -/
def exampleResourceCatalog : List ResourceDict :=
  [{ type := "resource",
     resource := { name := "config_app", description := "Static configuration data" } },
   { type := "resource",
     resource := { name := "greeting", description := "Get a personalized greeting" } }]

/-- C7 witness: the bullet-structure equation at a concrete two-resource
catalog. -/
theorem system_message_bullets_witness :
    _build_system_message (some exampleResourceCatalog) =
      SYSTEM_MESSAGE_BASE ++ RESOURCES_PROMPT ++
        String.join (exampleResourceCatalog.map bulletLine) ++ TOOL_USAGE_PROMPT :=
  (system_message_bullets exampleResourceCatalog (by decide)).1

/-- C8: the greeting handler returns `"Hello, <name>!"` for every name, and
reading `greeting://Ann` through the generic reader yields `"Hello, Ann!"`,
for every filesystem state. -/
theorem greeting_resource (name : String) (fs : FileSystem) :
    get_greeting name = "Hello, " ++ name ++ "!" ∧
    read_resource_content fs "greeting://Ann" = "Hello, Ann!" :=
  ⟨rfl, rfl⟩

/-- C9: a URI matching none of the dispatch guards is answered with
`"Unknown resource URI: <uri>"`, for every filesystem state. -/
theorem unknown_resource_uri (fs : FileSystem) (uri : String)
    (h1 : uri ≠ "data://list") (h2 : uri ≠ "data://list_all_data_products")
    (h3 : uri ≠ "config://app") (h4 : uri ≠ "config://get_config")
    (h5 : pyStartswith uri "greeting://" = false) :
    read_resource_content fs uri = "Unknown resource URI: " ++ uri := by
  unfold read_resource_content read_resource_content_with
  simp [serverHandlers, h1, h2, h3, h4, h5]

/-- A filesystem with no `resources` directory. -/
def emptyFileSystem : FileSystem :=
  { path_exists := fun _ => false, listdir := fun _ => .ok [], isdir := fun _ => false }

/-- C9 witness: an unrecognized URI at a concrete filesystem. -/
theorem unknown_resource_uri_witness :
    read_resource_content emptyFileSystem "notes://today" =
      "Unknown resource URI: notes://today" :=
  unknown_resource_uri emptyFileSystem "notes://today" (by decide) (by decide) (by decide)
    (by decide) (by decide)

/-- C10: the generic reader is a total `String`-valued function, and whichever
handler the URI dispatches to, if that handler call raises with message `e`,
the reader returns `"Error reading resource <uri>: <e>"` instead of
propagating. -/
theorem resource_reader_catches_handler_errors (handlers : ResourceHandlers) (uri e : String) :
    ((uri = "data://list" ∨ uri = "data://list_all_data_products") →
        handlers.list_all_data_products = .error e →
        read_resource_content_with handlers uri =
          "Error reading resource " ++ uri ++ ": " ++ e) ∧
    (uri ≠ "data://list" → uri ≠ "data://list_all_data_products" →
        (uri = "config://app" ∨ uri = "config://get_config") →
        handlers.get_config = .error e →
        read_resource_content_with handlers uri =
          "Error reading resource " ++ uri ++ ": " ++ e) ∧
    (uri ≠ "data://list" → uri ≠ "data://list_all_data_products" →
        uri ≠ "config://app" → uri ≠ "config://get_config" →
        pyStartswith uri "greeting://" = true →
        handlers.get_greeting (pyReplace uri "greeting://" "") = .error e →
        read_resource_content_with handlers uri =
          "Error reading resource " ++ uri ++ ": " ++ e) := by
  refine ⟨?_, ?_, ?_⟩
  · rintro (rfl | rfl) herr <;> simp [read_resource_content_with, herr]
  · rintro h1 h2 (rfl | rfl) herr <;> simp [read_resource_content_with, herr]
  · intro h1 h2 h3 h4 hpre herr
    unfold read_resource_content_with
    simp [h1, h2, h3, h4, hpre, herr]

/-- Handlers whose configuration resource raises. -/
def failingConfigHandlers : ResourceHandlers :=
  { list_all_data_products := .ok "unused",
    get_config := .error "disk failure",
    get_greeting := fun name => .ok (get_greeting name) }

/-- C10 witness: a raising config handler is answered with the formatted error
text. -/
theorem resource_reader_catches_handler_errors_witness :
    read_resource_content_with failingConfigHandlers "config://app" =
      "Error reading resource config://app: disk failure" :=
  (resource_reader_catches_handler_errors failingConfigHandlers "config://app"
    "disk failure").2.1 (by decide) (by decide) (Or.inl rfl) rfl

end MCPDataProduct
